import Mathlib

-- Verification of the onlinestore double-entry ledger (ledger.py) and
-- purchase-order workflow (orders.py).
--
-- Embedding conventions:
--   * Python Decimal amounts are embedded as exact rationals (ℚ): the code
--     only adds, subtracts, negates and compares amounts, so ℚ is faithful.
--   * Mutation is embedded as explicit state passing; a Python method that
--     can raise ValueError returns Except String / pairs a state with an
--     Option String (the raised message), keeping any partial mutation that
--     the Python code would leave behind.
--   * Python dicts keyed by name / product_id are embedded as lists of
--     records; the dict key-uniqueness enforced by Ledger.add_account and
--     Inventory.add_product appears as Nodup hypotheses where needed.

-- ### ledger.py: AccountType, Account

inductive AccountType where
  | ASSET
  | LIABILITY
  | EQUITY
  | INCOME
  | EXPENSE
deriving DecidableEq, Repr

structure Account where
  name : String
  account_type : AccountType
  balance : ℚ
deriving DecidableEq, Repr

-- The signed balance change of `Account._apply_transaction`, one branch per
-- account type exactly as in the source (ledger.py lines 280-289).
def deltaFor (t : AccountType) (amount : ℚ) (is_debit : Bool) : ℚ :=
  match t with
  | .ASSET => if is_debit then amount else -amount
  | .LIABILITY => if is_debit then -amount else amount
  | .EQUITY => if is_debit then -amount else amount
  | .INCOME => if is_debit then -amount else amount
  | .EXPENSE => if is_debit then amount else -amount

-- `Account._apply_transaction`: raises ValueError on a negative amount,
-- otherwise updates the balance per the polarity branches.
def applyTransaction (acc : Account) (amount : ℚ) (is_debit : Bool) :
    Except String Account :=
  if amount < 0 then .error "Transaction amount must be non-negative."
  else .ok { acc with balance := acc.balance + deltaFor acc.account_type amount is_debit }

def Account.debit (acc : Account) (amount : ℚ) : Except String Account :=
  applyTransaction acc amount true

def Account.credit (acc : Account) (amount : ℚ) : Except String Account :=
  applyTransaction acc amount false

-- ### ledger.py: JournalEntryLine, JournalEntry

inductive JournalEntryLineType where
  | DEBIT
  | CREDIT
deriving DecidableEq, Repr

-- A journal entry line; the Python object holds a reference to the Account
-- object, which is registered in the ledger under its (unique) name, so the
-- embedding identifies the account by name.
structure JournalEntryLine where
  account_name : String
  amount : ℚ
  entry_type : JournalEntryLineType
deriving DecidableEq, Repr

-- `JournalEntryLine.__init__`: raises ValueError unless the amount is
-- strictly positive (ledger.py line 322).
def mkJournalEntryLine (account : Account) (amount : ℚ)
    (entry_type : JournalEntryLineType) : Except String JournalEntryLine :=
  if amount ≤ 0 then .error "Journal entry line amount must be positive."
  else .ok { account_name := account.name, amount := amount, entry_type := entry_type }

structure JournalEntry where
  description : String
  lines : List JournalEntryLine
deriving DecidableEq, Repr

-- `sum(line.amount for line in self.lines if line.entry_type == DEBIT)`
def totalDebits (e : JournalEntry) : ℚ :=
  ((e.lines.filter (fun l => l.entry_type = .DEBIT)).map (fun l => l.amount)).sum

def totalCredits (e : JournalEntry) : ℚ :=
  ((e.lines.filter (fun l => l.entry_type = .CREDIT)).map (fun l => l.amount)).sum

-- `JournalEntry.is_balanced`: exact equality of the two Decimal sums.
def JournalEntry.is_balanced (e : JournalEntry) : Bool :=
  decide (totalDebits e = totalCredits e)

-- ### ledger.py: Ledger

structure Ledger where
  accounts : List Account
  journal_entries : List JournalEntry
deriving DecidableEq, Repr

-- `Ledger.get_account`: raises ValueError when the name is absent.
def Ledger.get_account (lg : Ledger) (name : String) : Except String Account :=
  match lg.accounts.find? (fun a => a.name == name) with
  | some a => .ok a
  | none => .error ("Account with name " ++ name ++ " not found.")

-- Applying one line to the registered accounts: the Python loop mutates the
-- Account object referenced by the line, i.e. the account registered under
-- that name (amount known non-negative at this point, handled by the caller).
def applyLineDelta (accs : List Account) (l : JournalEntryLine) : List Account :=
  accs.map (fun a =>
    if a.name = l.account_name then
      { a with balance := a.balance +
          deltaFor a.account_type l.amount (l.entry_type = .DEBIT) }
    else a)

-- The `for line in entry.lines` loop of `Ledger.record_entry`: on a negative
-- amount, `_apply_transaction` raises mid-loop, keeping the mutations of the
-- earlier lines (the pair carries the partial state with the error).
def applyLinesPartial (accs : List Account) :
    List JournalEntryLine → List Account × Option String
  | [] => (accs, none)
  | l :: ls =>
    if l.amount < 0 then (accs, some "Transaction amount must be non-negative.")
    else applyLinesPartial (applyLineDelta accs l) ls

-- `Ledger.record_entry`: reject an unbalanced entry before touching any
-- account; otherwise apply every line, then append the entry.
def Ledger.record_entry (lg : Ledger) (e : JournalEntry) : Ledger × Option String :=
  if e.is_balanced then
    match applyLinesPartial lg.accounts e.lines with
    | (accs, none) =>
      ({ accounts := accs, journal_entries := lg.journal_entries ++ [e] }, none)
    | (accs, some m) => ({ lg with accounts := accs }, some m)
  else
    (lg, some "Journal entry must be balanced (total debits must equal total credits).")

-- ### Derived notions used by the claims

-- A debit/credit operation on a single account (claim C1).
inductive LedgerOp where
  | debitOp (amount : ℚ)
  | creditOp (amount : ℚ)
deriving DecidableEq, Repr

def LedgerOp.amount : LedgerOp → ℚ
  | .debitOp a => a
  | .creditOp a => a

def applyOp (acc : Account) : LedgerOp → Except String Account
  | .debitOp a => acc.debit a
  | .creditOp a => acc.credit a

def applyOps (acc : Account) : List LedgerOp → Except String Account
  | [] => .ok acc
  | op :: ops =>
    match applyOp acc op with
    | .ok acc' => applyOps acc' ops
    | .error m => .error m

-- Polarity table as the spec states it (spec §3 / §8): debits add for
-- Asset and Expense and subtract for Liability, Equity and Income; credits
-- do the inverse. This is the spec-side signed amount of one operation.
def polaritySigned (t : AccountType) : LedgerOp → ℚ
  | .debitOp a =>
    match t with
    | .ASSET => a
    | .EXPENSE => a
    | _ => -a
  | .creditOp a =>
    match t with
    | .ASSET => -a
    | .EXPENSE => -a
    | _ => a

-- Spec-side signed amount of a journal line (debit positive, credit
-- negative); a balanced entry is one whose signed amounts sum to zero.
def lineSigned (l : JournalEntryLine) : ℚ :=
  match l.entry_type with
  | .DEBIT => l.amount
  | .CREDIT => -l.amount

lemma signed_sum_eq (ls : List JournalEntryLine) :
    (ls.map lineSigned).sum =
      ((ls.filter (fun l => l.entry_type = .DEBIT)).map (fun l => l.amount)).sum -
      ((ls.filter (fun l => l.entry_type = .CREDIT)).map (fun l => l.amount)).sum := by
  induction ls with
  | nil => simp
  | cons l ls ih =>
    cases h : l.entry_type <;>
      simp [List.filter_cons, h, lineSigned, ih] <;> ring

lemma deltaFor_polarity_debit (t : AccountType) (a : ℚ) :
    deltaFor t a true = polaritySigned t (.debitOp a) := by
  cases t <;> rfl

lemma deltaFor_polarity_credit (t : AccountType) (a : ℚ) :
    deltaFor t a false = polaritySigned t (.creditOp a) := by
  cases t <;> rfl

lemma applyOp_ok (acc : Account) (op : LedgerOp) (h : 0 ≤ op.amount) :
    applyOp acc op =
      .ok { acc with balance := acc.balance + polaritySigned acc.account_type op } := by
  cases op with
  | debitOp a =>
    have : ¬ a < 0 := not_lt.2 h
    simp [applyOp, Account.debit, applyTransaction, this, deltaFor_polarity_debit]
  | creditOp a =>
    have : ¬ a < 0 := not_lt.2 h
    simp [applyOp, Account.credit, applyTransaction, this, deltaFor_polarity_credit]

/-- C1: for every account of any type and every finite sequence of debit and
credit operations with non-negative amounts, the final balance equals the
initial balance plus the signed sum of the amounts per the polarity table
(debits add for Asset and Expense and subtract for Liability, Equity and
Income; credits do the inverse). -/
theorem C1_balance_is_signed_sum (acc : Account) (ops : List LedgerOp)
    (h : ∀ op ∈ ops, 0 ≤ op.amount) :
    applyOps acc ops =
      .ok { acc with balance :=
              acc.balance + ((ops.map (polaritySigned acc.account_type)).sum) } := by
  induction ops generalizing acc with
  | nil => simp [applyOps]
  | cons op ops ih =>
    have h0 : 0 ≤ op.amount := h op (List.mem_cons_self _ _)
    have hrest : ∀ o ∈ ops, 0 ≤ o.amount := fun o ho => h o (List.mem_cons_of_mem _ ho)
    rw [applyOps, applyOp_ok acc op h0]
    show applyOps { acc with balance := acc.balance + polaritySigned acc.account_type op } ops = _
    rw [ih _ hrest]
    simp [add_assoc]

/-- Witness for C1, the scenario of spec §8: an Asset account at 1000,
debited 200 then credited 300, ends at 900. -/
theorem C1_balance_is_signed_sum_witness :
    applyOps ⟨"Cash", .ASSET, 1000⟩ [LedgerOp.debitOp 200, LedgerOp.creditOp 300] =
      .ok ⟨"Cash", .ASSET, 900⟩ := by
  have h := C1_balance_is_signed_sum ⟨"Cash", .ASSET, 1000⟩
    [LedgerOp.debitOp 200, LedgerOp.creditOp 300] (by decide)
  rw [h]
  simp [polaritySigned]
  norm_num

/-- C4: `is_balanced` is a pure predicate that is true exactly when the exact
rational (Decimal) sum of the Debit-side amounts equals that of the
Credit-side amounts, i.e. when the signed line amounts sum to zero, with no
tolerance. -/
theorem C4_is_balanced_iff_signed_sum_zero (e : JournalEntry) :
    e.is_balanced = true ↔ (e.lines.map lineSigned).sum = 0 := by
  rw [JournalEntry.is_balanced, decide_eq_true_iff, signed_sum_eq, sub_eq_zero]
  exact ⟨fun h => h, fun h => h⟩

/-- C2: an entry whose debit total differs from its credit total is rejected
by `record_entry` with the unbalanced-entry error, and the ledger — every
account balance and the committed journal_entries sequence — is unchanged. -/
theorem C2_unbalanced_entry_rejected (lg : Ledger) (e : JournalEntry)
    (h : totalDebits e ≠ totalCredits e) :
    lg.record_entry e =
      (lg, some "Journal entry must be balanced (total debits must equal total credits).") := by
  have hb : e.is_balanced = false := by
    simp [JournalEntry.is_balanced, h]
  simp [Ledger.record_entry, hb]

/-- Witness for C2, the scenario of spec §8: lines (Cash, 500, Debit) and
(Sales Revenue, 499, Credit) are rejected leaving the ledger unchanged. -/
theorem C2_unbalanced_entry_rejected_witness :
    Ledger.record_entry ⟨[⟨"Cash", .ASSET, 0⟩, ⟨"Sales Revenue", .INCOME, 0⟩], []⟩
        ⟨"sale", [⟨"Cash", 500, .DEBIT⟩, ⟨"Sales Revenue", 499, .CREDIT⟩]⟩ =
      (⟨[⟨"Cash", .ASSET, 0⟩, ⟨"Sales Revenue", .INCOME, 0⟩], []⟩,
       some "Journal entry must be balanced (total debits must equal total credits).") :=
  C2_unbalanced_entry_rejected _ _ (by simp [totalDebits, totalCredits])

/-- C9: an entry with no lines is vacuously balanced and `record_entry`
accepts it, appending it to the committed sequence and changing no account
balance. -/
theorem C9_empty_entry_accepted (lg : Ledger) (e : JournalEntry)
    (h : e.lines = []) :
    e.is_balanced = true ∧
      lg.record_entry e =
        ({ accounts := lg.accounts, journal_entries := lg.journal_entries ++ [e] }, none) := by
  have hb : e.is_balanced = true := by
    simp [JournalEntry.is_balanced, totalDebits, totalCredits, h]
  refine ⟨hb, ?_⟩
  rw [Ledger.record_entry, if_pos hb, h]
  rfl

/-- Witness for C9 at a concrete one-account ledger and an empty entry. -/
theorem C9_empty_entry_accepted_witness :
    JournalEntry.is_balanced ⟨"noop", []⟩ = true ∧
      Ledger.record_entry ⟨[⟨"Cash", .ASSET, 7⟩], []⟩ ⟨"noop", []⟩ =
        (⟨[⟨"Cash", .ASSET, 7⟩], [⟨"noop", []⟩]⟩, none) :=
  C9_empty_entry_accepted ⟨[⟨"Cash", .ASSET, 7⟩], []⟩ ⟨"noop", []⟩ rfl

/-- C8: `debit` and `credit` fail (with the invalid-amount error) exactly when
the amount is negative — on failure no new account state is produced, so the
balance is unchanged — and on a non-negative amount they succeed, changing
only the balance field (name and type preserved). -/
theorem C8_debit_credit_fail_iff_negative (acc : Account) (amount : ℚ) :
    ((amount < 0) ↔ ∃ msg, acc.debit amount = .error msg) ∧
    ((amount < 0) ↔ ∃ msg, acc.credit amount = .error msg) ∧
    (0 ≤ amount →
      (∃ b, acc.debit amount = .ok { acc with balance := b }) ∧
      (∃ b, acc.credit amount = .ok { acc with balance := b })) := by
  refine ⟨⟨fun h => ?_, fun hm => ?_⟩, ⟨fun h => ?_, fun hm => ?_⟩, fun h => ⟨?_, ?_⟩⟩
  · exact ⟨"Transaction amount must be non-negative.",
      by simp [Account.debit, applyTransaction, h]⟩
  · obtain ⟨msg, hm⟩ := hm
    by_contra hneg
    simp [Account.debit, applyTransaction, hneg] at hm
  · exact ⟨"Transaction amount must be non-negative.",
      by simp [Account.credit, applyTransaction, h]⟩
  · obtain ⟨msg, hm⟩ := hm
    by_contra hneg
    simp [Account.credit, applyTransaction, hneg] at hm
  · exact ⟨acc.balance + deltaFor acc.account_type amount true,
      by simp [Account.debit, applyTransaction, not_lt.2 h]⟩
  · exact ⟨acc.balance + deltaFor acc.account_type amount false,
      by simp [Account.credit, applyTransaction, not_lt.2 h]⟩

/-- Witness for C8 at a concrete Asset account and the non-negative amount
200 (and the iff sides at amount 200). -/
theorem C8_debit_credit_fail_iff_negative_witness :
    ((200 : ℚ) < 0 ↔ ∃ msg, Account.debit ⟨"Cash", .ASSET, 1000⟩ 200 = .error msg) ∧
    ((200 : ℚ) < 0 ↔ ∃ msg, Account.credit ⟨"Cash", .ASSET, 1000⟩ 200 = .error msg) ∧
    ((0 : ℚ) ≤ 200 →
      (∃ b, Account.debit ⟨"Cash", .ASSET, 1000⟩ 200 =
          .ok { (⟨"Cash", .ASSET, 1000⟩ : Account) with balance := b }) ∧
      (∃ b, Account.credit ⟨"Cash", .ASSET, 1000⟩ 200 =
          .ok { (⟨"Cash", .ASSET, 1000⟩ : Account) with balance := b })) :=
  C8_debit_credit_fail_iff_negative ⟨"Cash", .ASSET, 1000⟩ 200

-- ### C3: the accounting-equation aggregate

-- Spec-side weight of an account type in the aggregate of the claim:
-- (Assets) − (Liabilities + Equity) − (Income) + (Expense).
def typeWeight : AccountType → ℚ
  | .ASSET => 1
  | .LIABILITY => -1
  | .EQUITY => -1
  | .INCOME => -1
  | .EXPENSE => 1

def aggAccounts (accs : List Account) : ℚ :=
  (accs.map (fun a => typeWeight a.account_type * a.balance)).sum

def accountNames (accs : List Account) : List String :=
  accs.map (fun a => a.name)

-- Recording a sequence of entries, stopping at the first raised error
-- (each `record_entry` call either raises or commits).
def recordAll (lg : Ledger) : List JournalEntry → Ledger × Option String
  | [] => (lg, none)
  | e :: es =>
    match lg.record_entry e with
    | (lg', none) => recordAll lg' es
    | (lg', some m) => (lg', some m)

lemma applyLineDelta_cons (a : Account) (accs : List Account) (l : JournalEntryLine) :
    applyLineDelta (a :: accs) l =
      (if a.name = l.account_name then
        { a with balance := a.balance +
            deltaFor a.account_type l.amount (l.entry_type = .DEBIT) }
      else a) :: applyLineDelta accs l := rfl

lemma names_applyLineDelta (accs : List Account) (l : JournalEntryLine) :
    accountNames (applyLineDelta accs l) = accountNames accs := by
  induction accs with
  | nil => rfl
  | cons a accs ih =>
    simp only [accountNames] at ih ⊢
    rw [applyLineDelta_cons]
    by_cases h : a.name = l.account_name <;> simp [h, ih]

lemma applyLineDelta_no_match (accs : List Account) (l : JournalEntryLine)
    (h : l.account_name ∉ accountNames accs) :
    applyLineDelta accs l = accs := by
  induction accs with
  | nil => rfl
  | cons a accs ih =>
    simp only [accountNames, List.map_cons, List.mem_cons, not_or] at h
    rw [applyLineDelta_cons, if_neg (fun hh => h.1 hh.symm), ih h.2]

lemma aggAccounts_cons (a : Account) (accs : List Account) :
    aggAccounts (a :: accs) = typeWeight a.account_type * a.balance + aggAccounts accs := by
  simp [aggAccounts]

lemma weight_delta (t : AccountType) (l : JournalEntryLine) :
    typeWeight t * deltaFor t l.amount (l.entry_type = .DEBIT) = lineSigned l := by
  cases h : l.entry_type <;> cases t <;>
    simp [typeWeight, deltaFor, lineSigned, h]

lemma agg_applyLineDelta (accs : List Account) (l : JournalEntryLine)
    (hnd : (accountNames accs).Nodup)
    (hmem : l.account_name ∈ accountNames accs) :
    aggAccounts (applyLineDelta accs l) = aggAccounts accs + lineSigned l := by
  induction accs with
  | nil => simp [accountNames] at hmem
  | cons a accs ih =>
    rw [accountNames, List.map_cons, List.nodup_cons] at hnd
    rw [accountNames, List.map_cons, List.mem_cons] at hmem
    rw [applyLineDelta_cons]
    by_cases h : a.name = l.account_name
    · have htail : l.account_name ∉ accountNames accs := by
        rw [← h]; exact hnd.1
      rw [if_pos h, applyLineDelta_no_match accs l htail,
          aggAccounts_cons, aggAccounts_cons]
      have hw := weight_delta a.account_type l
      push_cast
      nlinarith [hw]
    · have hmem' : l.account_name ∈ accountNames accs := by
        rcases hmem with hmem | hmem
        · exact absurd hmem.symm h
        · exact hmem
      rw [if_neg h, aggAccounts_cons, aggAccounts_cons, ih hnd.2 hmem']
      ring

lemma names_applyLinesPartial (lines : List JournalEntryLine) (accs : List Account) :
    accountNames (applyLinesPartial accs lines).1 = accountNames accs := by
  induction lines generalizing accs with
  | nil => rfl
  | cons l ls ih =>
    rw [applyLinesPartial]
    by_cases h : l.amount < 0
    · rw [if_pos h]
    · rw [if_neg h, ih, names_applyLineDelta]

lemma agg_applyLinesPartial (lines : List JournalEntryLine)
    (accs accs' : List Account)
    (hnd : (accountNames accs).Nodup)
    (hreg : ∀ l ∈ lines, l.account_name ∈ accountNames accs)
    (hok : applyLinesPartial accs lines = (accs', none)) :
    aggAccounts accs' = aggAccounts accs + (lines.map lineSigned).sum := by
  induction lines generalizing accs with
  | nil =>
    rw [applyLinesPartial] at hok
    cases hok
    simp
  | cons l ls ih =>
    rw [applyLinesPartial] at hok
    by_cases hneg : l.amount < 0
    · rw [if_pos hneg] at hok
      simp at hok
    · rw [if_neg hneg] at hok
      have hnd2 : (accountNames (applyLineDelta accs l)).Nodup := by
        rw [names_applyLineDelta]; exact hnd
      have hreg2 : ∀ x ∈ ls, x.account_name ∈ accountNames (applyLineDelta accs l) := by
        rw [names_applyLineDelta]
        exact fun x hx => hreg x (List.mem_cons_of_mem _ hx)
      rw [ih (applyLineDelta accs l) hnd2 hreg2 hok,
          agg_applyLineDelta accs l hnd (hreg l (List.mem_cons_self _ _))]
      simp
      ring

lemma balanced_iff_signed_sum (e : JournalEntry) :
    e.is_balanced = true ↔ (e.lines.map lineSigned).sum = 0 := by
  rw [JournalEntry.is_balanced, decide_eq_true_iff, signed_sum_eq, sub_eq_zero]
  exact ⟨fun h => h, fun h => h⟩

lemma record_entry_preserves (lg lg' : Ledger) (e : JournalEntry)
    (hnd : (accountNames lg.accounts).Nodup)
    (hreg : ∀ l ∈ e.lines, l.account_name ∈ accountNames lg.accounts)
    (hok : lg.record_entry e = (lg', none)) :
    aggAccounts lg'.accounts = aggAccounts lg.accounts ∧
      accountNames lg'.accounts = accountNames lg.accounts := by
  rw [Ledger.record_entry] at hok
  by_cases hb : e.is_balanced
  · rw [if_pos hb] at hok
    cases hpl : applyLinesPartial lg.accounts e.lines with
    | mk accs m =>
      rw [hpl] at hok
      cases m with
      | none =>
        cases hok
        have hsum : (e.lines.map lineSigned).sum = 0 :=
          (balanced_iff_signed_sum e).1 hb
        constructor
        · rw [show ({ accounts := accs, journal_entries := lg.journal_entries ++ [e] } : Ledger).accounts = accs from rfl,
              agg_applyLinesPartial e.lines lg.accounts accs hnd hreg hpl, hsum, add_zero]
        · have := names_applyLinesPartial e.lines lg.accounts
          rw [hpl] at this
          exact this
      | some msg => simp at hok
  · rw [if_neg hb] at hok
    simp at hok

/-- C3: when the aggregate (Assets) − (Liabilities + Equity) − (Income) +
(Expense) over the registered accounts is zero, recording any sequence of
entries that `record_entry` accepts (each necessarily balanced), whose lines
all target registered accounts, keeps that aggregate zero: the ledger stays
balanced with Income and Expense folded into Equity via closing. -/
theorem C3_aggregate_stays_zero (lg : Ledger) (entries : List JournalEntry)
    (lg' : Ledger)
    (hnd : (accountNames lg.accounts).Nodup)
    (hreg : ∀ e ∈ entries, ∀ l ∈ e.lines, l.account_name ∈ accountNames lg.accounts)
    (hagg : aggAccounts lg.accounts = 0)
    (hrec : recordAll lg entries = (lg', none)) :
    aggAccounts lg'.accounts = 0 := by
  induction entries generalizing lg with
  | nil =>
    rw [recordAll] at hrec
    cases hrec
    exact hagg
  | cons e es ih =>
    rw [recordAll] at hrec
    cases h1 : lg.record_entry e with
    | mk lg1 m =>
      rw [h1] at hrec
      cases m with
      | some msg => simp at hrec
      | none =>
        obtain ⟨hagg1, hnames1⟩ :=
          record_entry_preserves lg lg1 e hnd (hreg e (List.mem_cons_self _ _)) h1
        exact ih lg1 (by rw [hnames1]; exact hnd)
          (fun e' he' l hl => by
            rw [hnames1]
            exact hreg e' (List.mem_cons_of_mem _ he') l hl)
          (by rw [hagg1]; exact hagg) hrec

/-- Witness for C3: a two-account ledger (Cash 100 Asset, Owner 100 Equity)
with aggregate zero stays at aggregate zero after recording a balanced
500-debit/500-credit entry. -/
theorem C3_aggregate_stays_zero_witness :
    aggAccounts [⟨"Cash", .ASSET, 600⟩, ⟨"Owner", .EQUITY, 600⟩] = 0 := by
  have hrec : recordAll ⟨[⟨"Cash", .ASSET, 100⟩, ⟨"Owner", .EQUITY, 100⟩], []⟩
      [⟨"sale", [⟨"Cash", 500, .DEBIT⟩, ⟨"Owner", 500, .CREDIT⟩]⟩] =
      (⟨[⟨"Cash", .ASSET, 600⟩, ⟨"Owner", .EQUITY, 600⟩],
        [⟨"sale", [⟨"Cash", 500, .DEBIT⟩, ⟨"Owner", 500, .CREDIT⟩]⟩]⟩, none) := by
    simp [recordAll, Ledger.record_entry, JournalEntry.is_balanced,
      totalDebits, totalCredits, applyLinesPartial, applyLineDelta, deltaFor]
    norm_num
  have h := C3_aggregate_stays_zero
    ⟨[⟨"Cash", .ASSET, 100⟩, ⟨"Owner", .EQUITY, 100⟩], []⟩
    [⟨"sale", [⟨"Cash", 500, .DEBIT⟩, ⟨"Owner", 500, .CREDIT⟩]⟩] _
    (by simp [accountNames])
    (by
      intro e he l hl
      simp [accountNames]
      simp at he
      subst he
      simp at hl
      rcases hl with hl | hl <;> simp [hl])
    (by norm_num [aggAccounts, typeWeight])
    hrec
  simpa using h

-- ### orders.py: Product, Inventory

structure Product where
  product_id : String
  name : String
  price : ℚ
  stock : Int
  cost_price : ℚ
deriving DecidableEq, Repr

-- `Product.check_stock`: stock >= quantity.
def Product.check_stock (p : Product) (quantity : Int) : Bool :=
  decide (quantity ≤ p.stock)

-- `Product.update_stock`: decrement, or raise when stock is short.
def Product.update_stock (p : Product) (quantity : Int) : Except String Product :=
  if p.check_stock quantity then .ok { p with stock := p.stock - quantity }
  else .error ("Not enough stock for product " ++ p.product_id ++ ".")

structure Inventory where
  products : List Product
deriving DecidableEq, Repr

-- `Inventory.get_product`: dict lookup by product_id.
def Inventory.get_product (inv : Inventory) (product_id : String) : Option Product :=
  inv.products.find? (fun p => p.product_id == product_id)

-- `Inventory.check_stock`: False when the product is unknown.
def Inventory.check_stock (inv : Inventory) (product_id : String) (quantity : Int) : Bool :=
  match inv.get_product product_id with
  | some p => p.check_stock quantity
  | none => false

-- `Inventory.update_stock`: delegates to the product (whose raise
-- propagates), raises when the product is unknown. The mutation of the found
-- object is the update of the registered product of that id (ids unique).
def Inventory.update_stock (inv : Inventory) (product_id : String) (quantity : Int) :
    Except String Inventory :=
  match inv.get_product product_id with
  | some p =>
    match p.update_stock quantity with
    | .ok _ =>
      .ok ⟨inv.products.map (fun q =>
        if q.product_id = product_id then { q with stock := q.stock - quantity } else q)⟩
    | .error m => .error m
  | none => .error ("Product " ++ product_id ++ " not found in inventory.")

-- `Inventory.get_product_cost`: None when the product is unknown.
def Inventory.get_product_cost (inv : Inventory) (product_id : String) : Option ℚ :=
  match inv.get_product product_id with
  | some p => some p.cost_price
  | none => none

-- ### orders.py: the accept_purchase_order workflow

-- One item of the incoming order_data dict (the required fields; the
-- missing-field branches of the Python code concern untyped dicts and are
-- outside the typed embedding).
structure OrderItemData where
  product_id : String
  quantity : Int
  unit_price : ℚ
deriving DecidableEq, Repr

structure OrderData where
  customer_id : String
  items : List OrderItemData
deriving DecidableEq, Repr

-- An element of processed_items: the validated item plus the unit cost
-- looked up in the inventory (0 when the product or its cost is unknown).
structure ProcessedItem where
  product_id : String
  quantity : Int
  unit_price : ℚ
  unit_cost : ℚ
deriving DecidableEq, Repr

-- The per-item validation loop of accept_purchase_order (orders.py lines
-- 144-170): positive integer quantity, non-negative unit price, then the
-- cost lookup with Decimal(0) fallback; the first failure returns.
def validateItems (inv : Inventory) : List OrderItemData → Except String (List ProcessedItem)
  | [] => .ok []
  | it :: rest =>
    if it.quantity ≤ 0 then
      .error ("Item quantity for " ++ it.product_id ++ " must be a positive integer.")
    else if it.unit_price < 0 then
      .error ("Item unit price for " ++ it.product_id ++ " must be a non-negative number.")
    else
      match validateItems inv rest with
      | .ok rest' =>
        .ok ({ product_id := it.product_id, quantity := it.quantity,
               unit_price := it.unit_price,
               unit_cost := (inv.get_product_cost it.product_id).getD 0 } :: rest')
      | .error m => .error m

-- `Order.calculate_total`: sum of quantity * unit_price.
def calculate_total (items : List ProcessedItem) : ℚ :=
  (items.map (fun it => (it.quantity : ℚ) * it.unit_price)).sum

-- `Order.calculate_total_cost_of_goods_sold`: sum of quantity * unit_cost.
def calculate_total_cogs (items : List ProcessedItem) : ℚ :=
  (items.map (fun it => (it.quantity : ℚ) * it.unit_cost)).sum

-- The availability loop (orders.py lines 201-205): the first item whose
-- stock check fails aborts the workflow, returning its product_id.
def checkAllStock (inv : Inventory) : List ProcessedItem → Option String
  | [] => none
  | it :: rest =>
    if inv.check_stock it.product_id it.quantity then checkAllStock inv rest
    else some it.product_id

-- The stock-update loop (orders.py lines 208-209): an uncaught raise stops
-- the loop keeping the earlier decrements.
def updateAllStock (inv : Inventory) : List ProcessedItem → Inventory × Option String
  | [] => (inv, none)
  | it :: rest =>
    match inv.update_stock it.product_id it.quantity with
    | .ok inv' => updateAllStock inv' rest
    | .error m => (inv, some m)

-- Building the sale journal entry (orders.py lines 247-259), in source
-- order: Cash and Sales Revenue lookups, the two sale lines, then — only
-- when COGS is positive — the COGS/Inventory lookups and lines.
def buildSaleLines (lg : Ledger) (total_amount total_cogs : ℚ) :
    Except String (List JournalEntryLine) := do
  let cash_account ← lg.get_account "Cash"
  let sales_revenue_account ← lg.get_account "Sales Revenue"
  let l1 ← mkJournalEntryLine cash_account total_amount .DEBIT
  let l2 ← mkJournalEntryLine sales_revenue_account total_amount .CREDIT
  if total_cogs > 0 then do
    let cogs_account ← lg.get_account "Cost of Goods Sold"
    let inventory_asset_account ← lg.get_account "Inventory"
    let l3 ← mkJournalEntryLine cogs_account total_cogs .DEBIT
    let l4 ← mkJournalEntryLine inventory_asset_account total_cogs .CREDIT
    pure [l1, l2, l3, l4]
  else
    pure [l1, l2]

-- Step 6 of accept_purchase_order: build the entry, re-check balance, and
-- record it; a ValueError anywhere in the block is caught and turned into
-- the failed-transaction error return, keeping whatever ledger state the
-- partially executed block left (stock is NOT restored by the source).
def postSale (lg : Ledger) (total_amount total_cogs : ℚ) : Ledger × Option String :=
  match buildSaleLines lg total_amount total_cogs with
  | .error m => (lg, some ("Failed to record financial transaction: " ++ m))
  | .ok lines =>
    let e : JournalEntry := { description := "Sale", lines := lines }
    if e.is_balanced then
      match lg.record_entry e with
      | (lg', none) => (lg', none)
      | (lg', some m) => (lg', some ("Failed to record financial transaction: " ++ m))
    else
      (lg, some "Internal error: Journal entry for sale is not balanced.")

-- The returned status dict: success with the order total, an error return,
-- or an uncaught Python exception escaping the call (exn).
inductive OrderResult where
  | success (total : ℚ)
  | error (msg : String)
  | exn (msg : String)
deriving DecidableEq, Repr

-- `accept_purchase_order` (orders.py lines 120-284) without the MongoDB
-- collection (orders_collection=None skips step 5) and with the always-true
-- payment placeholder of step 4 elided as the source executes it.
def accept_purchase_order (order_data : OrderData) (inv : Inventory) (lg : Ledger) :
    OrderResult × Inventory × Ledger :=
  if order_data.items.isEmpty then
    (.error "Order must contain at least one item.", inv, lg)
  else
    match validateItems inv order_data.items with
    | .error m => (.error m, inv, lg)
    | .ok processed_items =>
      match checkAllStock inv processed_items with
      | some pid =>
        (.error ("Insufficient stock for product " ++ pid ++ "."), inv, lg)
      | none =>
        match updateAllStock inv processed_items with
        | (inv', some m) => (.exn m, inv', lg)
        | (inv', none) =>
          let total_amount := calculate_total processed_items
          let total_cogs := calculate_total_cogs processed_items
          match postSale lg total_amount total_cogs with
          | (lg', some m) => (.error m, inv', lg')
          | (lg', none) => (.success total_amount, inv', lg')

-- ### C7 / C10: insufficient stock and unknown products

lemma validateItems_ids (inv : Inventory) (items : List OrderItemData)
    (processed : List ProcessedItem)
    (hv : validateItems inv items = .ok processed) :
    processed.map (fun it => (it.product_id, it.quantity)) =
      items.map (fun it => (it.product_id, it.quantity)) := by
  induction items generalizing processed with
  | nil =>
    rw [validateItems] at hv
    cases hv
    rfl
  | cons it rest ih =>
    rw [validateItems] at hv
    by_cases h1 : it.quantity ≤ 0
    · rw [if_pos h1] at hv; simp at hv
    · rw [if_neg h1] at hv
      by_cases h2 : it.unit_price < 0
      · rw [if_pos h2] at hv; simp at hv
      · rw [if_neg h2] at hv
        cases hrest : validateItems inv rest with
        | ok rest' =>
          rw [hrest] at hv
          cases hv
          simp [ih rest' hrest]
        | error m => rw [hrest] at hv; simp at hv

lemma checkAllStock_some (inv : Inventory) (l : List ProcessedItem)
    (h : ∃ it ∈ l, inv.check_stock it.product_id it.quantity = false) :
    ∃ pid, checkAllStock inv l = some pid := by
  induction l with
  | nil => simp at h
  | cons it rest ih =>
    rw [checkAllStock]
    by_cases hc : inv.check_stock it.product_id it.quantity
    · rw [if_pos hc]
      apply ih
      rcases h with ⟨x, hx, hfx⟩
      rcases List.mem_cons.1 hx with rfl | hx'
      · rw [hfx] at hc; cases hc
      · exact ⟨x, hx', hfx⟩
    · rw [if_neg hc]
      exact ⟨it.product_id, rfl⟩

lemma insufficient_stock_result (od : OrderData) (inv : Inventory) (lg : Ledger)
    (processed : List ProcessedItem)
    (hne : od.items ≠ [])
    (hv : validateItems inv od.items = .ok processed)
    (hfail : ∃ it ∈ processed, inv.check_stock it.product_id it.quantity = false) :
    ∃ pid, accept_purchase_order od inv lg =
      (.error ("Insufficient stock for product " ++ pid ++ "."), inv, lg) := by
  obtain ⟨pid, hsome⟩ := checkAllStock_some inv processed hfail
  refine ⟨pid, ?_⟩
  rw [accept_purchase_order,
    if_neg (by simp only [List.isEmpty_iff]; exact hne)]
  simp only [hv, hsome]

-- Membership transfer from the order items to the processed items: the
-- validation loop keeps each product_id and quantity.
lemma processed_of_item (inv : Inventory) (items : List OrderItemData)
    (processed : List ProcessedItem) (it : OrderItemData)
    (hv : validateItems inv items = .ok processed)
    (hit : it ∈ items) :
    ∃ it' ∈ processed, it'.product_id = it.product_id ∧ it'.quantity = it.quantity := by
  have hmem : (it.product_id, it.quantity) ∈
      processed.map (fun x => (x.product_id, x.quantity)) := by
    rw [validateItems_ids inv items processed hv]
    exact List.mem_map_of_mem _ hit
  rcases List.mem_map.1 hmem with ⟨it', hit', hpair⟩
  exact ⟨it', hit', congrArg Prod.fst hpair, congrArg Prod.snd hpair⟩

/-- C7: a well-formed order (one whose item validation succeeds) with some
item whose requested quantity exceeds the available stock of its product is
rejected with the insufficient-stock error, and neither the inventory nor
the ledger (accounts or committed entries) is changed. -/
theorem C7_insufficient_stock_no_mutation (od : OrderData) (inv : Inventory)
    (lg : Ledger) (processed : List ProcessedItem)
    (hv : validateItems inv od.items = .ok processed)
    (hins : ∃ it ∈ od.items, ∃ p, inv.get_product it.product_id = some p ∧
      p.stock < it.quantity) :
    ∃ pid, accept_purchase_order od inv lg =
      (.error ("Insufficient stock for product " ++ pid ++ "."), inv, lg) := by
  rcases hins with ⟨it, hit, p, hp, hstock⟩
  have hne : od.items ≠ [] := List.ne_nil_of_mem hit
  obtain ⟨it', hit', hpid, hqty⟩ := processed_of_item inv od.items processed it hv hit
  apply insufficient_stock_result od inv lg processed hne hv
  refine ⟨it', hit', ?_⟩
  rw [hpid, hqty, Inventory.check_stock, hp]
  simp [Product.check_stock, not_le.2 hstock]

/-- Witness for C7, the scenario of spec §8: quantity 10 requested of a
product with stock 5 yields the insufficient-stock error with inventory and
ledger unchanged. -/
theorem C7_insufficient_stock_no_mutation_witness :
    ∃ pid, accept_purchase_order ⟨"cust", [⟨"p1", 10, 25⟩]⟩
        ⟨[⟨"p1", "Widget", 25, 5, 10⟩]⟩ ⟨[⟨"Cash", .ASSET, 0⟩], []⟩ =
      (.error ("Insufficient stock for product " ++ pid ++ "."),
       ⟨[⟨"p1", "Widget", 25, 5, 10⟩]⟩, ⟨[⟨"Cash", .ASSET, 0⟩], []⟩) := by
  apply C7_insufficient_stock_no_mutation _ _ _ [⟨"p1", 10, 25, 10⟩]
  · simp [validateItems, Inventory.get_product_cost, Inventory.get_product]
  · refine ⟨⟨"p1", 10, 25⟩, by simp, ⟨"p1", "Widget", 25, 5, 10⟩, ?_, by norm_num⟩
    simp [Inventory.get_product]

/-- C10: `check_stock` on a product_id that is not registered in the
inventory returns false for every quantity (it does not raise), and hence a
well-formed order containing an unknown product_id is rejected with the
insufficient-stock error before any stock or ledger state is mutated. -/
theorem C10_unknown_product_insufficient (inv : Inventory) (lg : Ledger)
    (od : OrderData) (processed : List ProcessedItem)
    (hv : validateItems inv od.items = .ok processed)
    (hunk : ∃ it ∈ od.items, inv.get_product it.product_id = none) :
    (∀ pid q, inv.get_product pid = none → inv.check_stock pid q = false) ∧
    ∃ pid, accept_purchase_order od inv lg =
      (.error ("Insufficient stock for product " ++ pid ++ "."), inv, lg) := by
  have hcs : ∀ pid q, inv.get_product pid = none → inv.check_stock pid q = false := by
    intro pid q h
    rw [Inventory.check_stock, h]
  refine ⟨hcs, ?_⟩
  rcases hunk with ⟨it, hit, hnone⟩
  have hne : od.items ≠ [] := List.ne_nil_of_mem hit
  obtain ⟨it', hit', hpid, hqty⟩ := processed_of_item inv od.items processed it hv hit
  apply insufficient_stock_result od inv lg processed hne hv
  refine ⟨it', hit', ?_⟩
  rw [hpid]
  exact hcs it.product_id it'.quantity hnone

/-- Witness for C10: an order for an unregistered product_id is rejected
with the insufficient-stock error, state unchanged. -/
theorem C10_unknown_product_insufficient_witness :
    (∀ pid q, Inventory.get_product ⟨[⟨"known", "Widget", 25, 5, 10⟩]⟩ pid = none →
      Inventory.check_stock ⟨[⟨"known", "Widget", 25, 5, 10⟩]⟩ pid q = false) ∧
    ∃ pid, accept_purchase_order ⟨"cust", [⟨"ghost", 1, 5⟩]⟩
        ⟨[⟨"known", "Widget", 25, 5, 10⟩]⟩ ⟨[⟨"Cash", .ASSET, 0⟩], []⟩ =
      (.error ("Insufficient stock for product " ++ pid ++ "."),
       ⟨[⟨"known", "Widget", 25, 5, 10⟩]⟩, ⟨[⟨"Cash", .ASSET, 0⟩], []⟩) := by
  apply C10_unknown_product_insufficient _ _ _ [⟨"ghost", 1, 5, 0⟩]
  · simp [validateItems, Inventory.get_product_cost, Inventory.get_product]
  · refine ⟨⟨"ghost", 1, 5⟩, by simp, ?_⟩
    simp [Inventory.get_product]

-- ### C5: failure after the stock decrement does NOT restore stock

-- Concrete C5 scenario: a valid order of 2 units (stock 5) against a ledger
-- with no registered accounts, so the posting step raises on get_account.
def c5Order : OrderData := ⟨"cust", [⟨"p1", 2, 25⟩]⟩

def c5Inventory : Inventory := ⟨[⟨"p1", "Widget", 25, 5, 10⟩]⟩

def c5Ledger : Ledger := ⟨[], []⟩

/-- Counterexample to C5 as stated: in the concrete scenario the posting
step fails (no Cash account), the workflow returns an error, but the stock
stays decremented at 3 — it is NOT restored to its pre-order value 5. -/
theorem C5_counterexample :
    (accept_purchase_order c5Order c5Inventory c5Ledger).1 =
      .error "Failed to record financial transaction: Account with name Cash not found." ∧
    (accept_purchase_order c5Order c5Inventory c5Ledger).2.1 =
      ⟨[⟨"p1", "Widget", 25, 3, 10⟩]⟩ ∧
    (accept_purchase_order c5Order c5Inventory c5Ledger).2.1 ≠ c5Inventory := by
  have hrun : accept_purchase_order c5Order c5Inventory c5Ledger =
      (.error "Failed to record financial transaction: Account with name Cash not found.",
       ⟨[⟨"p1", "Widget", 25, 3, 10⟩]⟩, c5Ledger) := by
    simp only [c5Order, c5Inventory, c5Ledger, accept_purchase_order, validateItems,
      checkAllStock, updateAllStock, Inventory.check_stock, Inventory.get_product,
      Inventory.update_stock, Inventory.get_product_cost, Product.check_stock,
      Product.update_stock, calculate_total, calculate_total_cogs, postSale,
      buildSaleLines, Ledger.get_account]
    norm_num
    simp [Except.instMonad, Except.bind, Bind.bind, checkAllStock, updateAllStock,
      Inventory.check_stock, Inventory.get_product, Inventory.update_stock,
      Product.check_stock, Product.update_stock]
  rw [hrun]
  refine ⟨rfl, rfl, ?_⟩
  simp [c5Inventory]

/-- C5 amended: when the stock update has already succeeded and the posting
step then fails, `accept_purchase_order` returns the error, but the final
inventory is exactly the post-decrement inventory — the source issues no
compensating stock increment (step 6 of orders.py only returns the error). -/
theorem C5_posting_failure_keeps_decrement (od : OrderData) (inv inv' : Inventory)
    (lg lg' : Ledger) (processed : List ProcessedItem) (msg : String)
    (hne : od.items ≠ [])
    (hv : validateItems inv od.items = .ok processed)
    (hchk : checkAllStock inv processed = none)
    (hupd : updateAllStock inv processed = (inv', none))
    (hpost : postSale lg (calculate_total processed) (calculate_total_cogs processed) =
      (lg', some msg)) :
    accept_purchase_order od inv lg = (.error msg, inv', lg') := by
  rw [accept_purchase_order,
    if_neg (by simp only [List.isEmpty_iff]; exact hne)]
  simp only [hv, hchk, hupd, hpost]

/-- Witness for the amended C5 at the concrete scenario: error returned and
stock left at 3 of the original 5. -/
theorem C5_posting_failure_keeps_decrement_witness :
    accept_purchase_order c5Order c5Inventory c5Ledger =
      (.error "Failed to record financial transaction: Account with name Cash not found.",
       ⟨[⟨"p1", "Widget", 25, 3, 10⟩]⟩, c5Ledger) := by
  apply C5_posting_failure_keeps_decrement c5Order c5Inventory _ c5Ledger c5Ledger
    [⟨"p1", 2, 25, 10⟩]
  · simp [c5Order]
  · simp [c5Order, c5Inventory, validateItems, Inventory.get_product_cost,
      Inventory.get_product]
  · simp [c5Inventory, checkAllStock, Inventory.check_stock, Inventory.get_product,
      Product.check_stock]
  · simp [c5Inventory, updateAllStock, Inventory.update_stock, Inventory.get_product,
      Product.update_stock, Product.check_stock]
  · simp only [calculate_total, calculate_total_cogs, postSale, buildSaleLines,
      Ledger.get_account, c5Ledger]
    norm_num
    simp [Except.instMonad, Except.bind, Bind.bind]

-- ### C6: the 2 × 25.00 order with unit cost 10.00

-- Concrete C6 scenario: order of 2 units at unit price 25.00 of a product
-- with cost 10.00, against a ledger holding the four accounts the posting
-- step looks up.
def c6Order : OrderData := ⟨"cust", [⟨"prod_xyz", 2, 25⟩]⟩

def c6Inventory : Inventory := ⟨[⟨"prod_xyz", "Mouse", 25, 100, 10⟩]⟩

def c6Ledger : Ledger :=
  ⟨[⟨"Cash", .ASSET, 0⟩, ⟨"Sales Revenue", .INCOME, 0⟩,
    ⟨"Cost of Goods Sold", .EXPENSE, 0⟩, ⟨"Inventory", .ASSET, 1000⟩], []⟩

lemma c6_run :
    accept_purchase_order c6Order c6Inventory c6Ledger
      = (.success 50,
         ⟨[⟨"prod_xyz", "Mouse", 25, 98, 10⟩]⟩,
         ⟨[⟨"Cash", .ASSET, 50⟩, ⟨"Sales Revenue", .INCOME, 50⟩,
           ⟨"Cost of Goods Sold", .EXPENSE, 20⟩, ⟨"Inventory", .ASSET, 980⟩],
          [⟨"Sale", [⟨"Cash", 50, .DEBIT⟩, ⟨"Sales Revenue", 50, .CREDIT⟩,
                     ⟨"Cost of Goods Sold", 20, .DEBIT⟩,
                     ⟨"Inventory", 20, .CREDIT⟩]⟩]⟩) := by
  simp only [c6Order, c6Inventory, c6Ledger, accept_purchase_order, validateItems,
    checkAllStock, updateAllStock, Inventory.check_stock, Inventory.get_product,
    Inventory.update_stock, Inventory.get_product_cost, Product.check_stock,
    Product.update_stock, calculate_total, calculate_total_cogs, postSale,
    buildSaleLines, Ledger.get_account, mkJournalEntryLine, Ledger.record_entry,
    JournalEntry.is_balanced, totalDebits, totalCredits, applyLinesPartial,
    applyLineDelta, deltaFor]
  norm_num
  simp [Except.instMonad, Except.bind, Except.map, Bind.bind, Pure.pure, Except.pure,
    applyLinesPartial, applyLineDelta, deltaFor, JournalEntry.is_balanced,
    totalDebits, totalCredits, Ledger.record_entry,
    checkAllStock, updateAllStock, Inventory.check_stock, Inventory.get_product,
    Inventory.update_stock, Product.check_stock, Product.update_stock]
  norm_num

/-- Counterexample to C6 as stated: in the concrete scenario the order of 2
units at 25.00 with cost 10.00 succeeds with total 50, yet exactly ONE
journal entry is committed to the ledger, not two. -/
theorem C6_counterexample :
    (accept_purchase_order c6Order c6Inventory c6Ledger).1 = .success 50 ∧
    (accept_purchase_order c6Order c6Inventory c6Ledger).2.2.journal_entries.length = 1 ∧
    (accept_purchase_order c6Order c6Inventory c6Ledger).2.2.journal_entries.length ≠ 2 := by
  rw [c6_run]
  refine ⟨rfl, rfl, by norm_num⟩

/-- C6 amended: the order of 2 units at unit price 25.00 with known cost
10.00 computes total = 50.00 and COGS = 20.00, and a SINGLE balanced journal
entry containing both the cash/revenue pair and the COGS/inventory pair
(four lines) is committed to the ledger, posting all four balances. -/
theorem C6_single_combined_entry :
    calculate_total [⟨"prod_xyz", 2, 25, 10⟩] = 50 ∧
    calculate_total_cogs [⟨"prod_xyz", 2, 25, 10⟩] = 20 ∧
    accept_purchase_order c6Order c6Inventory c6Ledger
      = (.success 50,
         ⟨[⟨"prod_xyz", "Mouse", 25, 98, 10⟩]⟩,
         ⟨[⟨"Cash", .ASSET, 50⟩, ⟨"Sales Revenue", .INCOME, 50⟩,
           ⟨"Cost of Goods Sold", .EXPENSE, 20⟩, ⟨"Inventory", .ASSET, 980⟩],
          [⟨"Sale", [⟨"Cash", 50, .DEBIT⟩, ⟨"Sales Revenue", 50, .CREDIT⟩,
                     ⟨"Cost of Goods Sold", 20, .DEBIT⟩,
                     ⟨"Inventory", 20, .CREDIT⟩]⟩]⟩) ∧
    JournalEntry.is_balanced
      ⟨"Sale", [⟨"Cash", 50, .DEBIT⟩, ⟨"Sales Revenue", 50, .CREDIT⟩,
                ⟨"Cost of Goods Sold", 20, .DEBIT⟩,
                ⟨"Inventory", 20, .CREDIT⟩]⟩ = true := by
  refine ⟨?_, ?_, c6_run, ?_⟩
  · norm_num [calculate_total]
  · norm_num [calculate_total_cogs]
  · simp [JournalEntry.is_balanced, totalDebits, totalCredits]
